import Mathlib

/-!
# Verification of the CSV preprocessing / prediction pipeline

Shallow embedding of the transaction-processing module of the
credit-card fraud-detection front end (`preprocessCSV`, `processCSV`,
`predictTransaction`, `processTransactions`, `calculateRiskDistribution`
in `src/pages/About.tsx` / the transaction-utils module).

Raw CSV rows are string-keyed mappings whose values (as produced by the
CSV parser with `header: true` and no dynamic typing) are strings; a
field is "truthy" in the JavaScript sense exactly when it is present and
non-empty.  Machine numbers in the source are JavaScript doubles; every
value the claims touch is produced by exact decimal arithmetic, so we
embed numbers as rationals.
-/

namespace FraudPipeline

/-- JavaScript truthiness of an optional string field: present and non-empty. -/
def truthy (o : Option String) : Bool :=
  match o with
  | none => false
  | some s => s ≠ ""

/-- JavaScript `toLowerCase` (the source only ever feeds it ASCII), done at
the character-list level so that it evaluates by kernel reduction. -/
def toLowerStr (s : String) : String :=
  String.mk (s.toList.map Char.toLower)

/-- JavaScript `toUpperCase` (ASCII), at the character-list level. -/
def toUpperStr (s : String) : String :=
  String.mk (s.toList.map Char.toUpper)

/-- Containment of `needle` as a contiguous run inside `hay`. -/
def listContains : List Char → List Char → Bool
  | hay@(_ :: rest), needle => needle.isPrefixOf hay || listContains rest needle
  | [], needle => needle.isEmpty

/-- JavaScript `hay.includes(needle)`: substring containment. -/
def containsStr (hay needle : String) : Bool :=
  listContains hay.toList needle.toList

/-- The numeric value of a list of decimal digit characters (most significant
first), as `parseFloat`/`parseInt` accumulate it. -/
def digitsToNat (cs : List Char) : Nat :=
  cs.foldl (fun n c => 10 * n + (c.toNat - 48)) 0

/-- The digit-level work of JavaScript `parseFloat` on strings containing only
decimal digits and dots (the only inputs it receives in the source, which
strips all other characters first with `.replace(/[^\d.]/g, '')`): the longest
prefix of the form `digits* ['.' digits*]` is taken, and the result is `none`
(JavaScript `NaN`) when that prefix contains no digit; otherwise the integer
part, the fraction digits' value and the number of fraction digits. -/
def parseFloatParts (cs : List Char) : Option (Nat × Nat × Nat) :=
  let intDigits := cs.takeWhile Char.isDigit
  let rest := cs.drop intDigits.length
  match rest with
  | '.' :: rest2 =>
    let fracDigits := rest2.takeWhile Char.isDigit
    if intDigits.isEmpty && fracDigits.isEmpty then none
    else some (digitsToNat intDigits, digitsToNat fracDigits, fracDigits.length)
  | _ => if intDigits.isEmpty then none else some (digitsToNat intDigits, 0, 0)

/-- JavaScript `parseFloat` restricted to digit/dot strings, as a rational. -/
def parseFloatQ (cs : List Char) : Option ℚ :=
  (parseFloatParts cs).map (fun p => (p.1 : ℚ) + (p.2.1 : ℚ) / (10 : ℚ) ^ p.2.2)

/-- The stripping step `String(row.amt).replace(/[^\d.]/g, '')`: keep only digits and dots. -/
def stripNonDigitDot (s : String) : List Char :=
  s.toList.filter (fun c => c.isDigit || c = '.')

/-- The amount normalization of `preprocessCSV`:
`parseFloat(String(row.amt).replace(/[^\d.]/g, ''))`, with `NaN` coerced
to `0` (`isNaN(amt) ? 0 : amt`). -/
def parseAmt (s : String) : ℚ :=
  match parseFloatQ (stripNonDigitDot s) with
  | some q => q
  | none => 0

/-- The category branch of `preprocessCSV`: the thirteen `category_N` flags
are first all set to `0`, then the `if/else if` chain on
`String(row.category).toLowerCase()` sets exactly one index to `1`
(`category_1` when nothing matches or the field is absent/empty).  This
function returns that index; the chain's conditions and order are those of
the source. -/
def categoryIndex (cat : Option String) : Nat :=
  match cat with
  | some c0 =>
    if c0 ≠ "" then
      let c := toLowerStr c0
      if containsStr c "grocery" then 1
      else if containsStr c "gas" || containsStr c "transport" then 2
      else if containsStr c "entertain" then 3
      else if containsStr c "misc" then 4
      else if containsStr c "health" then 5
      else if containsStr c "food" || containsStr c "dining" then 6
      else if containsStr c "shop" then 7
      else if containsStr c "personal" then 8
      else if containsStr c "home" then 9
      else if containsStr c "kids" then 10
      else if containsStr c "travel" then 11
      else if containsStr c "service" then 12
      else 1
    else 1
  | none => 1

/-- The thirteen `category_1..category_13` flags of a processed row, as a
function from the flag's index (1-based): all zeroed, then the index chosen
by the source's keyword chain set to `1`. -/
def categoryFlags (cat : Option String) : Nat → ℕ :=
  fun j => if j = categoryIndex cat then 1 else 0

/-- The fixed list of 50 recognized state codes (`states` in the source). -/
def statesList : List String :=
  ["AL", "AR", "AZ", "CA", "CO", "CT", "DC", "DE", "FL", "GA",
   "HI", "IA", "ID", "IL", "IN", "KS", "KY", "LA", "MA", "MD",
   "ME", "MI", "MN", "MO", "MS", "MT", "NC", "ND", "NE", "NH",
   "NJ", "NM", "NV", "NY", "OH", "OK", "OR", "PA", "RI", "SC",
   "SD", "TN", "TX", "UT", "VA", "VT", "WA", "WI", "WV", "WY"]

/-- The state branch of `preprocessCSV`, as the function sending each state
code to its `state_<CODE>` flag.  All fifty flags start at `0`.  When
`row.state` is truthy its uppercasing is looked up in `statesList` and, if
found, that single flag is set to `1` — an unrecognized code sets nothing.
The source's second branch (`else if (processedRow.state)`) re-tests the same
value (`processedRow` starts as a spread of `row`, and `state` is never
deleted or overwritten before this point), so it is dead code, and the final
branch sets the default `state_CA = 1` exactly when `row.state` is falsy. -/
def stateFlags (rowState : Option String) : String → ℕ :=
  if truthy rowState then
    let code := toUpperStr (rowState.getD "")
    if code ∈ statesList then fun s => if s = code then 1 else 0
    else fun _ => 0
  else fun s => if s = "CA" then 1 else 0

/-- A raw CSV row, restricted to the columns `preprocessCSV` reads.  Other
columns are carried through (or dropped when purely numeric / `Unnamed`)
without affecting any field below. -/
structure RawRow where
  trans_num : Option String := none
  id : Option String := none
  cc_num : Option String := none
  amt : Option String := none
  trans_date_trans_time : Option String := none
  category : Option String := none
  gender : Option String := none
  state : Option String := none
  age : Option String := none
  merchant : Option String := none

/-- The fields of a processed (normalized) row that the claims concern.
`amt`/`amount` record the numeric amount fields written by the transform
(`none` when the raw `amt` is falsy and the transform writes neither);
`categoryFlags` and `stateFlags` are the one-hot encodings; derived
date-part fields (`transaction_hour`, `year`, …) and the `age` default,
which no claim touches, are omitted. -/
structure NormalizedRow where
  id : String
  trans_num : String
  cc_num : Option String
  amt : Option ℚ
  amount : Option ℚ
  date : Option String
  catFlags : Nat → ℕ
  gender_M : ℕ
  stFlags : String → ℕ
  merchant : Option String := none

/-- The per-row body of `preprocessCSV`.  `rngId` stands for the
`Math.floor(1000000 + Math.random() * 9000000)` draw used when no id is
present in the row. -/
def preprocessRow (rngId : Nat) (row : RawRow) : NormalizedRow :=
  let theId :=
    if truthy row.trans_num then row.trans_num.getD ""
    else if truthy row.id then row.id.getD ""
    else "TX-" ++ toString (1000000 + rngId % 9000000)
  { id := theId
    trans_num := theId
    cc_num :=
      if truthy row.cc_num then
        some (String.mk ((row.cc_num.getD "").toList.filter Char.isDigit))
      else row.cc_num
    amt := if truthy row.amt then some (parseAmt (row.amt.getD "")) else none
    amount := if truthy row.amt then some (parseAmt (row.amt.getD "")) else none
    date :=
      if truthy row.trans_date_trans_time then
        some (String.mk ((row.trans_date_trans_time.getD "").toList.takeWhile (fun c => c ≠ ' ')))
      else none
    catFlags := categoryFlags row.category
    gender_M :=
      if truthy row.gender then
        if toUpperStr (row.gender.getD "") = "M" then 1 else 0
      else 0
    stFlags := stateFlags row.state
    merchant := row.merchant }

/-- The batch preprocessor `preprocessCSV` over a parsed dataset.  The source iterates in batches of
`CHUNK_SIZE = 10000` rows (`data.slice(startIdx, endIdx)` concatenated in
order), which is the identity on the row sequence, and maps the per-row body
over every row; `idRng` supplies the random draw for each row position. -/
def preprocessCSV (idRng : Nat → Nat) (rows : List RawRow) : List NormalizedRow :=
  (rows.enum).map (fun p => preprocessRow (idRng p.1) p.2)

/-- The row-accumulation loop of `processCSV`: each parsed chunk is appended
to `results`, and once `results.length > 100000` the parser is aborted —
later chunks are not consumed, and the rows accumulated so far (including
the whole crossing chunk) are kept. -/
def collectChunksAux (results : List RawRow) : List (List RawRow) → List RawRow
  | [] => results
  | chunk :: rest =>
    let results2 := results ++ chunk
    if results2.length > 100000 then results2
    else collectChunksAux results2 rest

/-- All rows `processCSV` accumulates from the parser's chunk stream. -/
def collectChunks (chunks : List (List RawRow)) : List RawRow :=
  collectChunksAux [] chunks

/-- A partial transaction record returned by the prediction API inside one of
the three risk buckets.  `amt` is `some` exactly when the API supplied a
numeric `amt` (the source tests `typeof tx.amt === 'number'`);
`fraud_probability` is `some` exactly when the API supplied a number. -/
structure ApiTx where
  id : Option String := none
  trans_num : Option String := none
  cc_num : Option String := none
  merchant : Option String := none
  amt : Option ℚ := none
  date : Option String := none
  fraud_probability : Option ℚ := none

/-- The parsed JSON body of a successful `/predict` response.  Each bucket
field is read through `(prediction.xxx || [])`, so an absent bucket is the
empty list; `riskDistribution` holds the `(High, Medium, Low)` counts when
present. -/
structure PredictionResponse where
  highRiskTransactions : List ApiTx := []
  mediumRiskTransactions : List ApiTx := []
  lowRiskTransactions : List ApiTx := []
  riskDistribution : Option (ℚ × ℚ × ℚ) := none

/-- The final per-row view model.  Fields that a given code path may leave
undefined (`merchant` on the fallback paths, the amount and date of a
normalized row that never had them) are `Option`s. -/
structure ProcessedTx where
  id : Option String
  merchant : Option String
  amount : Option ℚ
  amt : Option ℚ
  date : Option String
  fraud_probability : ℚ
  risk_level : String

/-- The `originalTransactionMap`: every preprocessed row is `Map.set` under
its `id` when truthy, else under its `trans_num` (after `preprocessCSV` the
two are equal and non-empty, but the embedding keeps the source's shape);
later rows overwrite earlier ones on key collision. -/
def buildOrigMap (rows : List NormalizedRow) : String → Option NormalizedRow :=
  rows.foldl
    (fun m tx =>
      if tx.id ≠ "" then fun k => if k = tx.id then some tx else m k
      else if tx.trans_num ≠ "" then fun k => if k = tx.trans_num then some tx else m k
      else m)
    (fun _ => none)

/-- The merge step `enhanceTransaction` from `processTransactions`: resolve an id for the
API record (`tx.id || tx.trans_num || tx.cc_num || TX-<random>`), look up the
original row, and merge, with the API's values taking priority and the listed
defaults filled in.  `rngId` stands for the random draw of the synthesized
id, `today` for `new Date().toISOString().slice(0, 10)`. -/
def enhanceTransaction (origMap : String → Option NormalizedRow) (today : String)
    (rngId : Nat) (tx : ApiTx) (riskLevel : String) (defaultProb : ℚ) : ProcessedTx :=
  let txId :=
    if truthy tx.id then tx.id.getD ""
    else if truthy tx.trans_num then tx.trans_num.getD ""
    else if truthy tx.cc_num then tx.cc_num.getD ""
    else "TX-" ++ toString (1000000 + rngId % 9000000)
  let origTx := origMap txId
  { id := some txId
    merchant :=
      -- tx.merchant || origTx.merchant || "Unknown Merchant" (a merchant
      -- column of the uploaded CSV is preserved by the preprocessing spread)
      if truthy tx.merchant then tx.merchant
      else if truthy (origTx.bind (fun o => o.merchant)) then origTx.bind (fun o => o.merchant)
      else some "Unknown Merchant"
    amount :=
      -- typeof tx.amt === 'number' ? tx.amt : (origTx.amount || 0)
      match tx.amt with
      | some a => some a
      | none => some (((origTx.bind (fun o => o.amount)).getD 0))
    amt := match tx.amt with | some a => some a | none => origTx.bind (fun o => o.amt)
    date :=
      if truthy tx.date then tx.date
      else if truthy (origTx.bind (fun o => o.date)) then origTx.bind (fun o => o.date)
      else some today
    fraud_probability :=
      -- tx.fraud_probability || defaultProb: a missing OR zero (falsy) API
      -- value falls back to the bucket default
      match tx.fraud_probability with
      | some p => if p = 0 then defaultProb else p
      | none => defaultProb
    risk_level := riskLevel }

/-- A preprocessed row pushed onto a fallback bucket:
`{...tx, fraud_probability, risk_level}`. -/
def normalizedToProcessed (tx : NormalizedRow) (prob : ℚ) (lvl : String) : ProcessedTx :=
  { id := some tx.id
    merchant := tx.merchant
    amount := tx.amount
    amt := tx.amt
    date := tx.date
    fraud_probability := prob
    risk_level := lvl }

/-- The `preprocessedData.forEach` loop of the empty-bucket fallback: each
row at position `i` draws `rnd = draw i`, is pushed onto the high, medium or
low bucket according to the cumulative thresholds, and receives a
pseudo-probability built from a second draw `probDraw i`
(High: `0.7 + rnd·0.3`, Medium: `0.4 + rnd·0.3`, Low: `rnd·0.4`).
The three buckets preserve the rows' relative order. -/
def fallbackBuckets (dist : ℚ × ℚ × ℚ) (draw probDraw : Nat → ℚ) :
    Nat → List NormalizedRow → List ProcessedTx × List ProcessedTx × List ProcessedTx
  | _, [] => ([], [], [])
  | i, tx :: rest =>
    let later := fallbackBuckets dist draw probDraw (i + 1) rest
    let totalRisk := if dist.1 + dist.2.1 + dist.2.2 = 0 then 1 else dist.1 + dist.2.1 + dist.2.2
    let highThreshold := dist.1 / totalRisk
    let mediumThreshold := highThreshold + dist.2.1 / totalRisk
    if draw i < highThreshold then
      (normalizedToProcessed tx (7/10 + probDraw i * (3/10)) "High" :: later.1,
        later.2.1, later.2.2)
    else if draw i < mediumThreshold then
      (later.1, normalizedToProcessed tx (4/10 + probDraw i * (3/10)) "Medium" :: later.2.1,
        later.2.2)
    else
      (later.1, later.2.1, normalizedToProcessed tx (probDraw i * (4/10)) "Low" :: later.2.2)

/-- The random classification used both by the prediction-error fallback and
by the last-resort fallback:
`fraud_probability: Math.random(), risk_level: Math.random() > 0.7 ? "High" :
Math.random() > 0.4 ? "Medium" : "Low"` — three independent draws per row. -/
def randomRisk (probDraw lvlDraw1 lvlDraw2 : Nat → ℚ) (i : Nat) (tx : NormalizedRow) :
    ProcessedTx :=
  normalizedToProcessed tx (probDraw i)
    (if lvlDraw1 i > 7/10 then "High" else if lvlDraw2 i > 4/10 then "Medium" else "Low")

/-- Module-level constant `USE_DEMO_DATA_ON_ERROR` of the source. -/
def USE_DEMO_DATA_ON_ERROR : Bool := true

/-- The `{ message, statusCode }` diagnostic attached to a failed stage. -/
structure ApiError where
  message : String
  statusCode : Nat
deriving DecidableEq

/-- The resolution value of `processTransactions`. -/
structure ProcessResult where
  processedTransactions : List ProcessedTx
  error : Option ApiError := none

/-- The outcome of the awaited stages of one `processTransactions` run,
together with the run's sources of nondeterminism.  `csv` is the CSV
parser's chunk stream, or the parse error it rejects with; `prediction` is
the `/predict` call's parsed response, or the message of the error
`predictTransaction` throws (timeout, non-2xx status, or invalid response
format).  The `Nat → ℚ`/`Nat → Nat` fields are the `Math.random()` draws,
indexed by row position; `today` is the date string used for default dates. -/
structure Env where
  csv : Except String (List (List RawRow))
  prediction : Except String PredictionResponse
  idRng : Nat → Nat
  apiIdRng : Nat → Nat
  draw : Nat → ℚ
  probDraw : Nat → ℚ
  lvlDraw1 : Nat → ℚ
  lvlDraw2 : Nat → ℚ
  today : String

/-- The top-level orchestration `processTransactions`.  Shallowly embedded
as a total function of the stage outcomes:
  * a CSV-parse rejection is caught by the `catch (csvError)` handler, which
    resolves with an empty transaction list and a status-400 error;
  * with the CSV parsed, a `predictTransaction` failure is caught by the
    inner handler, which (`USE_DEMO_DATA_ON_ERROR` being `true`) resolves
    with the uploaded preprocessed rows carrying random probabilities and
    risk levels, plus a status-500 error;
  * with a response in hand, the three buckets are merged via
    `enhanceTransaction` ("High"/0.8, "Medium"/0.5, "Low"/0.2); if all three
    buckets were empty the rows are instead classified by the
    `riskDistribution` fallback; if the combined list is still empty the
    last-resort path returns every row with fully random level/probability.
The outermost `catch` (mock demo transactions) is unreachable here: in this
embedding the only failing operations are the two awaited stages above,
which its inner handlers already catch. -/
def processTransactions (env : Env) : ProcessResult :=
  match env.csv with
  | .error msg =>
    { processedTransactions := []
      error := some ⟨"Invalid CSV format for Spark/Dask processing: " ++ msg, 400⟩ }
  | .ok chunks =>
    let preprocessedData := preprocessCSV env.idRng (collectChunks chunks)
    match env.prediction with
    | .error msg =>
      if USE_DEMO_DATA_ON_ERROR then
        { processedTransactions :=
            preprocessedData.enum.map
              (fun p => randomRisk env.probDraw env.lvlDraw1 env.lvlDraw2 p.1 p.2)
          error := some ⟨"Apache Spark cluster error: " ++ msg ++
            ". Using Dask for local processing with simulated fraud probabilities.", 500⟩ }
      else
        { processedTransactions := []
          error := some ⟨"Apache Spark backend service error: " ++ msg ++
            ". Please try again or use the demo data option.", 500⟩ }
    | .ok prediction =>
      let origMap := buildOrigMap preprocessedData
      let highRiskTxs := prediction.highRiskTransactions.enum.map
        (fun p => enhanceTransaction origMap env.today (env.apiIdRng p.1) p.2 "High" (8/10))
      let medRiskTxs := prediction.mediumRiskTransactions.enum.map
        (fun p => enhanceTransaction origMap env.today (env.apiIdRng p.1) p.2 "Medium" (5/10))
      let lowRiskTxs := prediction.lowRiskTransactions.enum.map
        (fun p => enhanceTransaction origMap env.today (env.apiIdRng p.1) p.2 "Low" (2/10))
      if highRiskTxs.isEmpty ∧ medRiskTxs.isEmpty ∧ lowRiskTxs.isEmpty then
        let riskDist := prediction.riskDistribution.getD (0, 0, 0)
        let buckets := fallbackBuckets riskDist env.draw env.probDraw 0 preprocessedData
        let processedTransactions := buckets.1 ++ buckets.2.1 ++ buckets.2.2
        if processedTransactions.isEmpty then
          { processedTransactions :=
              preprocessedData.enum.map
                (fun p => randomRisk env.probDraw env.lvlDraw1 env.lvlDraw2 p.1 p.2) }
        else { processedTransactions := processedTransactions }
      else
        let processedTransactions := highRiskTxs ++ medRiskTxs ++ lowRiskTxs
        -- processedTransactions.length === 0 is impossible here (some bucket
        -- is non-empty), so the last-resort branch is skipped
        { processedTransactions := processedTransactions }

/-- One `riskCounts[tx.risk_level]++` step of `calculateRiskDistribution`.
On one of the three preset keys the stored count is incremented; JavaScript's
`undefined++` on any other key stores `NaN` under a new key — `NaN` has no
rational counterpart, so a value is an `Option ℚ` with `none` for `NaN`
(and `NaN + 1` stays `NaN`). -/
def bumpCount (counts : List (String × Option ℚ)) (k : String) : List (String × Option ℚ) :=
  if counts.any (fun p => p.1 == k) then
    counts.map (fun p => if p.1 = k then (p.1, p.2.map (fun v => v + 1)) else p)
  else counts ++ [(k, none)]

/-- The aggregation `calculateRiskDistribution`: fold the `forEach` increment over the
transactions starting from `{Low: 0, Medium: 0, High: 0}`, then return the
`Object.entries` view (insertion order: Low, Medium, High). -/
def calculateRiskDistribution (txs : List ProcessedTx) : List (String × Option ℚ) :=
  txs.foldl (fun counts tx => bumpCount counts tx.risk_level)
    [("Low", some 0), ("Medium", some 0), ("High", some 0)]

/-! ## Definitions written from the specification's words
(for refinement claims; everything above is translated from the source). -/

/-- The spec's fixed ordered list of keyword groups for category mapping:
grocery→1, gas/transport→2, entertain→3, misc→4, health→5, food/dining→6,
shop→7, personal→8, home→9, kids→10, travel→11, service→12. -/
def specCategoryGroups : List (List String × Nat) :=
  [(["grocery"], 1), (["gas", "transport"], 2), (["entertain"], 3), (["misc"], 4),
   (["health"], 5), (["food", "dining"], 6), (["shop"], 7), (["personal"], 8),
   (["home"], 9), (["kids"], 10), (["travel"], 11), (["service"], 12)]

/-- First keyword group (in the spec's order) one of whose keywords occurs in
`c`; its index wins, and `1` is the default when no group matches. -/
def specFirstMatch (c : String) : List (List String × Nat) → Nat
  | [] => 1
  | g :: rest =>
    if g.1.any (fun kw => containsStr c kw) then g.2 else specFirstMatch c rest

/-- The spec's category mapping: case-insensitively substring-match the input
`category` field against the ordered keyword groups, first matching group
wins, no match or an absent (or empty, hence falsy) field defaults to 1. -/
def specCategoryIndex (cat : Option String) : Nat :=
  match cat with
  | some c0 =>
    if c0 ≠ "" then specFirstMatch (toLowerStr c0) specCategoryGroups else 1
  | none => 1

/-- A concrete low-risk transaction for the C10 witness. -/
def lowTxExample : ProcessedTx :=
  { id := some "TX-1", merchant := none, amount := none, amt := none,
    date := none, fraud_probability := 0, risk_level := "Low" }

/-- A concrete environment whose prediction response has empty buckets and
distribution `{High: 100, Medium: 0, Low: 0}`, for the C4 witness. -/
def envAllHigh : Env :=
  { csv := .ok [[{}]]
    prediction := .ok { riskDistribution := some (100, 0, 0) }
    idRng := fun _ => 0
    apiIdRng := fun _ => 0
    draw := fun _ => 1/2
    probDraw := fun _ => 1/2
    lvlDraw1 := fun _ => 1/2
    lvlDraw2 := fun _ => 1/2
    today := "2025-01-01" }

/-- A concrete environment whose CSV stage fails, for C2. -/
def envCsvError : Env :=
  { csv := .error "bad CSV"
    prediction := .ok {}
    idRng := fun _ => 0
    apiIdRng := fun _ => 0
    draw := fun _ => 1/2
    probDraw := fun _ => 1/2
    lvlDraw1 := fun _ => 1/2
    lvlDraw2 := fun _ => 1/2
    today := "" }

/-! ## Observation helpers used by the claims -/

/-- How many of the thirteen `category_1..category_13` flags of a processed
row equal `1`. -/
def categoryFlagCount (r : NormalizedRow) : Nat :=
  (List.range 13).countP (fun k => r.catFlags (k + 1) == 1)

/-- How many of the fifty `state_<CODE>` flags of a processed row equal `1`. -/
def stateFlagCount (r : NormalizedRow) : Nat :=
  statesList.countP (fun s => r.stFlags s == 1)

end FraudPipeline

namespace FraudPipeline

/-! ## Helper lemmas -/

lemma parseFloatQ_nonneg {cs : List Char} {q : ℚ} (h : parseFloatQ cs = some q) :
    0 ≤ q := by
  unfold parseFloatQ at h
  cases hp : parseFloatParts cs with
  | none => rw [hp] at h; simp at h
  | some p =>
    rw [hp] at h
    simp only [Option.map_some'] at h
    cases h
    positivity

lemma parseAmt_nonneg (s : String) : 0 ≤ parseAmt s := by
  unfold parseAmt
  cases hp : parseFloatQ (stripNonDigitDot s) with
  | none => simp
  | some q => simpa using parseFloatQ_nonneg hp

lemma parseAmt_comma : parseAmt "1,234.56abc" = 123456 / 100 := by
  have h : parseFloatParts (stripNonDigitDot "1,234.56abc") = some (1234, 56, 2) := by
    decide
  unfold parseAmt parseFloatQ
  rw [h]
  norm_num

lemma parseAmt_garbage : parseAmt "garbage" = 0 := by
  have h : parseFloatParts (stripNonDigitDot "garbage") = none := by decide
  unfold parseAmt parseFloatQ
  rw [h]
  rfl

/-- The code's keyword chain and the spec's ordered-group first match agree. -/
lemma categoryIndex_eq_spec (cat : Option String) :
    categoryIndex cat = specCategoryIndex cat := by
  cases cat with
  | none => rfl
  | some c0 =>
    by_cases hc : c0 = ""
    · simp [categoryIndex, specCategoryIndex, hc]
    · simp only [categoryIndex, specCategoryIndex, hc, ne_eq, not_false_iff, if_true,
        specCategoryGroups, specFirstMatch, List.any_cons, List.any_nil, Bool.or_false]

lemma specFirstMatch_bounds (c : String) (gs : List (List String × Nat))
    (h : ∀ g ∈ gs, 1 ≤ g.2 ∧ g.2 ≤ 12) :
    1 ≤ specFirstMatch c gs ∧ specFirstMatch c gs ≤ 12 := by
  induction gs with
  | nil => simp [specFirstMatch]
  | cons g rest ih =>
    simp only [specFirstMatch]
    split_ifs
    · exact h g (by simp)
    · exact ih (fun g' hg' => h g' (List.mem_cons_of_mem _ hg'))

lemma categoryIndex_bounds (cat : Option String) :
    1 ≤ categoryIndex cat ∧ categoryIndex cat ≤ 12 := by
  rw [categoryIndex_eq_spec]
  cases cat with
  | none => simp [specCategoryIndex]
  | some c0 =>
    by_cases hc : c0 = ""
    · simp [specCategoryIndex, hc]
    · simp only [specCategoryIndex, hc, ne_eq, not_false_iff, if_true]
      exact specFirstMatch_bounds _ _ (by decide)

/-- One-hot count over the thirteen category positions. -/
lemma countP_oneHot_range13 {i : Nat} (h1 : 1 ≤ i) (h2 : i ≤ 13) :
    (List.range 13).countP (fun k => (if k + 1 = i then (1 : ℕ) else 0) == 1) = 1 := by
  interval_cases i <;> decide

lemma categoryFlagCount_eq_one (rngId : Nat) (row : RawRow) :
    categoryFlagCount (preprocessRow rngId row) = 1 := by
  obtain ⟨h1, h2⟩ := categoryIndex_bounds row.category
  unfold categoryFlagCount preprocessRow categoryFlags
  exact countP_oneHot_range13 h1 (le_trans h2 (by norm_num))

lemma statesList_nodup : statesList.Nodup := by decide

/-- Counting a one-hot indicator over a duplicate-free list containing the
hot key yields exactly one. -/
lemma countP_oneHot_of_mem {code : String} {l : List String} (d : l.Nodup)
    (h : code ∈ l) :
    l.countP (fun s => (if s = code then (1 : ℕ) else 0) == 1) = 1 := by
  have e : l.countP (fun s => (if s = code then (1 : ℕ) else 0) == 1)
      = l.countP (· == code) := by
    refine List.countP_congr (fun a _ => ?_)
    by_cases hac : a = code <;> simp [hac]
  rw [e, ← List.count_eq_countP, List.count_eq_one_of_mem d h]

lemma stateFlags_of_falsy {rowState : Option String} (h : truthy rowState = false) :
    stateFlags rowState = fun s => if s = "CA" then 1 else 0 := by
  unfold stateFlags
  rw [h]
  simp

lemma stateFlags_of_valid {s : String} (hs : s ≠ "")
    (hmem : toUpperStr s ∈ statesList) :
    stateFlags (some s) = fun c => if c = toUpperStr s then 1 else 0 := by
  unfold stateFlags
  have ht : truthy (some s) = true := by simp [truthy, hs]
  rw [ht]
  simp [hmem]

lemma stateFlags_of_invalid {s : String} (hs : s ≠ "")
    (hmem : toUpperStr s ∉ statesList) :
    stateFlags (some s) = fun _ => 0 := by
  unfold stateFlags
  have ht : truthy (some s) = true := by simp [truthy, hs]
  rw [ht]
  simp [hmem]

lemma stateFlagCount_of_falsy {rowState : Option String} (h : truthy rowState = false) :
    statesList.countP (fun s => stateFlags rowState s == 1) = 1 := by
  rw [stateFlags_of_falsy h]
  exact countP_oneHot_of_mem statesList_nodup (by decide)

lemma stateFlagCount_of_valid {s : String} (hs : s ≠ "")
    (hmem : toUpperStr s ∈ statesList) :
    statesList.countP (fun c => stateFlags (some s) c == 1) = 1 := by
  rw [stateFlags_of_valid hs hmem]
  exact countP_oneHot_of_mem statesList_nodup hmem

lemma stateFlagCount_of_invalid {s : String} (hs : s ≠ "")
    (hmem : toUpperStr s ∉ statesList) :
    statesList.countP (fun c => stateFlags (some s) c == 1) = 0 := by
  rw [stateFlags_of_invalid hs hmem]
  simp

lemma preprocessRow_stFlags (rngId : Nat) (row : RawRow) :
    (preprocessRow rngId row).stFlags = stateFlags row.state := rfl

lemma preprocessRow_catFlags (rngId : Nat) (row : RawRow) :
    (preprocessRow rngId row).catFlags = categoryFlags row.category := rfl

end FraudPipeline

namespace FraudPipeline

/-! ## Claim theorems -/

/-- C1 (counterexample): the claim "every normalized row has exactly one
category flag and exactly one state flag equal to 1" fails at the concrete
raw row `{state: "ZZ"}` — `"ZZ"` is not one of the 50 recognized codes, the
valid-code branch sets nothing, and the `state_CA` default branch is not
taken because the field is truthy, so zero state flags are set. -/
theorem C1_counterexample :
    ¬ (categoryFlagCount (preprocessRow 0 { state := some "ZZ" }) = 1 ∧
       stateFlagCount (preprocessRow 0 { state := some "ZZ" }) = 1) := by
  intro h
  have h0 : stateFlagCount (preprocessRow 0 { state := some "ZZ" }) = 0 := by decide
  rw [h0] at h
  exact absurd h.2 (by norm_num)

/-- C1 (amended): the normalize transform is total and always sets exactly
one of the thirteen category flags to 1; it sets exactly one of the fifty
state flags to 1 whenever the `state` field is absent/empty or a recognized
code — but a present, unrecognized state code leaves all fifty state flags
at 0. -/
theorem C1_normalize_flag_invariant (rngId : Nat) (row : RawRow) :
    categoryFlagCount (preprocessRow rngId row) = 1 ∧
    (truthy row.state = false → stateFlagCount (preprocessRow rngId row) = 1) ∧
    (∀ s, row.state = some s → s ≠ "" → toUpperStr s ∈ statesList →
      stateFlagCount (preprocessRow rngId row) = 1) ∧
    (∀ s, row.state = some s → s ≠ "" → toUpperStr s ∉ statesList →
      stateFlagCount (preprocessRow rngId row) = 0) := by
  refine ⟨categoryFlagCount_eq_one rngId row, ?_, ?_, ?_⟩
  · intro h
    unfold stateFlagCount
    rw [preprocessRow_stFlags]
    exact stateFlagCount_of_falsy h
  · intro s hs hne hmem
    unfold stateFlagCount
    rw [preprocessRow_stFlags, hs]
    exact stateFlagCount_of_valid hne hmem
  · intro s hs hne hmem
    unfold stateFlagCount
    rw [preprocessRow_stFlags, hs]
    exact stateFlagCount_of_invalid hne hmem

/-- C1 witness: at the empty raw row all hypotheses are dischargeable and
both flag families are one-hot. -/
theorem C1_witness :
    categoryFlagCount (preprocessRow 0 {}) = 1 ∧
    stateFlagCount (preprocessRow 0 {}) = 1 :=
  ⟨(C1_normalize_flag_invariant 0 {}).1,
   (C1_normalize_flag_invariant 0 {}).2.1 (by decide)⟩

/-- C3 (counterexample): the claim "a present but unrecognized state code
sets `state_CA = 1`" fails at the concrete raw row `{state: "zz"}`: the
normalizer leaves `state_CA` at 0 (the CA default only fires when the field
is falsy). -/
theorem C3_counterexample :
    ¬ ((preprocessRow 0 { state := some "zz" }).stFlags "CA" = 1) := by
  decide

/-- C3 (amended): a present but unrecognized state code (case-insensitively
not among the 50 codes) sets none of the fifty state flags; only an entirely
absent or empty `state` field defaults `state_CA` to 1. -/
theorem C3_invalid_state_policy (rngId : Nat) (row : RawRow) :
    (∀ s, row.state = some s → s ≠ "" → toUpperStr s ∉ statesList →
      ∀ c, (preprocessRow rngId row).stFlags c = 0) ∧
    (truthy row.state = false → (preprocessRow rngId row).stFlags "CA" = 1) := by
  constructor
  · intro s hs hne hmem c
    rw [preprocessRow_stFlags, hs, stateFlags_of_invalid hne hmem]
  · intro h
    rw [preprocessRow_stFlags, stateFlags_of_falsy h]
    simp

/-- C3 witness: the invalid code `"Qx"` sets nothing (in particular not
`state_CA`), discharged by applying the amended theorem at that input. -/
theorem C3_witness :
    (preprocessRow 0 { state := some "Qx" }).stFlags "CA" = 0 :=
  (C3_invalid_state_policy 0 { state := some "Qx" }).1 "Qx" rfl
    (by decide) (by decide) "CA"

/-- C7 (confirmed): amount normalization strips everything but digits and
dots, parses the rest as a float defaulting to 0, and mirrors the result
into both `amt` and `amount`: `"1,234.56abc"` parses to 1234.56 and
`"garbage"` to 0. -/
theorem C7_amount_parsing :
    (∀ rngId row,
      (preprocessRow rngId row).amount = (preprocessRow rngId row).amt) ∧
    (preprocessRow 0 { amt := some "1,234.56abc" }).amt = some (123456 / 100) ∧
    (preprocessRow 0 { amt := some "garbage" }).amt = some 0 := by
  refine ⟨fun rngId row => rfl, ?_, ?_⟩
  · rw [show (preprocessRow 0 { amt := some "1,234.56abc" }).amt
        = some (parseAmt "1,234.56abc") from rfl, parseAmt_comma]
  · rw [show (preprocessRow 0 { amt := some "garbage" }).amt
        = some (parseAmt "garbage") from rfl, parseAmt_garbage]

/-- C8 (confirmed): the category branch computes exactly the spec's ordered
first-match over the keyword groups (grocery→1, gas/transport→2, …,
service→12, default 1), the flags are the one-hot encoding of that index,
and `"Fast Food Dining"` lands on `category_6` with all other flags 0. -/
theorem C8_category_keyword_mapping :
    (∀ cat, categoryIndex cat = specCategoryIndex cat) ∧
    (∀ cat j, categoryFlags cat j = if j = specCategoryIndex cat then 1 else 0) ∧
    (∀ j, categoryFlags (some "Fast Food Dining") j = if j = 6 then 1 else 0) := by
  refine ⟨categoryIndex_eq_spec, ?_, ?_⟩
  · intro cat j
    unfold categoryFlags
    rw [categoryIndex_eq_spec]
  · intro j
    unfold categoryFlags
    rw [show categoryIndex (some "Fast Food Dining") = 6 from by decide]

end FraudPipeline

namespace FraudPipeline

/-- C6 (counterexample): the claim "every normalized row contains `amt` and
`amount` holding non-negative numbers" fails at the empty raw row: with the
`amt` field absent (falsy) the transform writes neither numeric field. -/
theorem C6_counterexample :
    (preprocessRow 0 {}).amt = none ∧ (preprocessRow 0 {}).amount = none :=
  ⟨rfl, rfl⟩

/-- C6 (amended): whenever the raw `amt` field is present and non-empty, the
normalized row's `amt` and `amount` are set, equal, and hold a non-negative
number (0 when the stripped string fails to parse). -/
theorem C6_amount_nonneg (rngId : Nat) (row : RawRow) (h : truthy row.amt = true) :
    ∃ q, (preprocessRow rngId row).amt = some q ∧
      (preprocessRow rngId row).amount = some q ∧ 0 ≤ q := by
  refine ⟨parseAmt (row.amt.getD ""), ?_, ?_, parseAmt_nonneg _⟩ <;>
    · unfold preprocessRow
      simp [h]

/-- C6 witness: concrete instance of the amended theorem at `{amt: "12"}`. -/
theorem C6_witness :
    ∃ q, (preprocessRow 0 { amt := some "12" }).amt = some q ∧
      (preprocessRow 0 { amt := some "12" }).amount = some q ∧ 0 ≤ q :=
  C6_amount_nonneg 0 { amt := some "12" } (by decide)

lemma collectChunksAux_join (chunks : List (List RawRow)) :
    ∀ acc, ∃ k, collectChunksAux acc chunks = acc ++ (chunks.take k).flatten := by
  induction chunks with
  | nil => exact fun acc => ⟨0, by simp [collectChunksAux]⟩
  | cons ch rest ih =>
    intro acc
    unfold collectChunksAux
    dsimp only
    split_ifs with h
    · exact ⟨1, by simp⟩
    · obtain ⟨k, hk⟩ := ih (acc ++ ch)
      exact ⟨k + 1, by simp [hk, List.take_succ_cons, List.flatten_cons, List.append_assoc]⟩

lemma collectChunksAux_length_le (c : Nat) (chunks : List (List RawRow)) :
    ∀ acc : List RawRow,
      (∀ ch ∈ chunks, ch.length ≤ c) → acc.length ≤ 100000 →
      (collectChunksAux acc chunks).length ≤ 100000 + c := by
  induction chunks with
  | nil =>
    intro acc _ hacc
    simpa [collectChunksAux] using le_trans hacc (by omega)
  | cons ch rest ih =>
    intro acc h hacc
    unfold collectChunksAux
    dsimp only
    split_ifs with hlen
    · have hc : ch.length ≤ c := h ch (by simp)
      simp only [List.length_append]
      omega
    · refine ih (acc ++ ch) (fun x hx => h x (List.mem_cons_of_mem _ hx)) ?_
      simp only [List.length_append] at hlen ⊢
      omega

lemma collectChunks_single (ch : List RawRow) : collectChunks [ch] = ch := by
  unfold collectChunks collectChunksAux
  dsimp only
  split_ifs <;> simp [collectChunksAux]

/-- C9 (counterexample): the claim "the parser produces at most 100,000 rows"
fails: the abort check runs only after a whole chunk has been appended, so a
single chunk of 100,001 rows is returned in full. -/
theorem C9_counterexample :
    ¬ ((collectChunks [List.replicate 100001 ({} : RawRow)]).length ≤ 100000) := by
  rw [collectChunks_single, List.length_replicate]
  norm_num

/-- C9 (amended): row collection aborts at the end of the first chunk that
pushes the accumulated total above 100,000 — the output is always a
chunk-aligned prefix of the stream (so reaching the cap aborts early, without
an error, returning the rows parsed so far) and its length is at most
100,000 plus one chunk's size, which can exceed the 100,000 cap. -/
theorem C9_row_cap (chunks : List (List RawRow)) (c : Nat)
    (h : ∀ ch ∈ chunks, ch.length ≤ c) :
    (collectChunks chunks).length ≤ 100000 + c ∧
    ∃ k, collectChunks chunks = (chunks.take k).flatten := by
  constructor
  · exact collectChunksAux_length_le c chunks [] h (by simp)
  · obtain ⟨k, hk⟩ := collectChunksAux_join chunks []
    exact ⟨k, by simpa using hk⟩

/-- C9 witness: concrete two-chunk stream with chunks of size at most 1. -/
theorem C9_witness :
    (collectChunks [[({} : RawRow)], [{}]]).length ≤ 100000 + 1 ∧
    ∃ k, collectChunks [[({} : RawRow)], [{}]]
      = ([[({} : RawRow)], [{}]].take k).flatten :=
  C9_row_cap [[{}], [{}]] 1 (by intro ch hch; fin_cases hch <;> simp)

end FraudPipeline

namespace FraudPipeline

lemma bumpCount_low (a b c : Option ℚ) :
    bumpCount [("Low", a), ("Medium", b), ("High", c)] "Low"
      = [("Low", a.map (fun v => v + 1)), ("Medium", b), ("High", c)] := rfl

lemma bumpCount_medium (a b c : Option ℚ) :
    bumpCount [("Low", a), ("Medium", b), ("High", c)] "Medium"
      = [("Low", a), ("Medium", b.map (fun v => v + 1)), ("High", c)] := rfl

lemma bumpCount_high (a b c : Option ℚ) :
    bumpCount [("Low", a), ("Medium", b), ("High", c)] "High"
      = [("Low", a), ("Medium", b), ("High", c.map (fun v => v + 1))] := rfl

lemma calcRiskAux (txs : List ProcessedTx) :
    ∀ a b c : ℚ,
      (∀ tx ∈ txs, tx.risk_level = "Low" ∨ tx.risk_level = "Medium" ∨
        tx.risk_level = "High") →
      ∃ l m hi : ℚ,
        txs.foldl (fun counts tx => bumpCount counts tx.risk_level)
            [("Low", some a), ("Medium", some b), ("High", some c)]
          = [("Low", some l), ("Medium", some m), ("High", some hi)] ∧
        l + m + hi = a + b + c + txs.length := by
  induction txs with
  | nil => exact fun a b c _ => ⟨a, b, c, rfl, by simp⟩
  | cons tx rest ih =>
    intro a b c h
    have hrest : ∀ t ∈ rest, t.risk_level = "Low" ∨ t.risk_level = "Medium" ∨
        t.risk_level = "High" :=
      fun t ht => h t (List.mem_cons_of_mem _ ht)
    rcases h tx (by simp) with h1 | h1 | h1
    · obtain ⟨l, m, hi, heq, hsum⟩ := ih (a + 1) b c hrest
      refine ⟨l, m, hi, ?_, ?_⟩
      · rw [List.foldl_cons, h1, bumpCount_low]
        simpa using heq
      · rw [hsum, List.length_cons]
        push_cast
        ring
    · obtain ⟨l, m, hi, heq, hsum⟩ := ih a (b + 1) c hrest
      refine ⟨l, m, hi, ?_, ?_⟩
      · rw [List.foldl_cons, h1, bumpCount_medium]
        simpa using heq
      · rw [hsum, List.length_cons]
        push_cast
        ring
    · obtain ⟨l, m, hi, heq, hsum⟩ := ih a b (c + 1) hrest
      refine ⟨l, m, hi, ?_, ?_⟩
      · rw [List.foldl_cons, h1, bumpCount_high]
        simpa using heq
      · rw [hsum, List.length_cons]
        push_cast
        ring

/-- C10 (confirmed): on a transaction list whose risk levels are all among
Low/Medium/High, `calculateRiskDistribution` returns exactly the three
entries Low, Medium, High (in insertion order) with numeric counts summing
to the list's length. -/
theorem C10_distribution_counts (txs : List ProcessedTx)
    (h : ∀ tx ∈ txs, tx.risk_level = "Low" ∨ tx.risk_level = "Medium" ∨
      tx.risk_level = "High") :
    ∃ l m hi : ℚ,
      calculateRiskDistribution txs
        = [("Low", some l), ("Medium", some m), ("High", some hi)] ∧
      l + m + hi = txs.length := by
  obtain ⟨l, m, hi, heq, hsum⟩ := calcRiskAux txs 0 0 0 h
  refine ⟨l, m, hi, heq, ?_⟩
  rw [hsum]
  ring

/-- C10 witness: the theorem applied to a concrete one-element list. -/
theorem C10_witness :
    ∃ l m hi : ℚ,
      calculateRiskDistribution [lowTxExample]
        = [("Low", some l), ("Medium", some m), ("High", some hi)] ∧
      l + m + hi = ([lowTxExample] : List ProcessedTx).length :=
  C10_distribution_counts [lowTxExample]
    (by intro tx htx; fin_cases htx; left; rfl)

lemma enhanceTransaction_fraud_probability
    (origMap : String → Option NormalizedRow) (today : String) (rngId : Nat)
    (tx : ApiTx) (lvl : String) (dflt : ℚ) :
    (enhanceTransaction origMap today rngId tx lvl dflt).fraud_probability
      = match tx.fraud_probability with
        | some p => if p = 0 then dflt else p
        | none => dflt := rfl

/-- C5 (counterexample): the claim "fraud_probability equals the
API-provided value whenever the API provided one" fails at an API record
carrying `fraud_probability: 0` in the High bucket — `||` treats the
provided 0 as falsy and substitutes the bucket default 0.8. -/
theorem C5_counterexample :
    ¬ ((enhanceTransaction (fun _ => none) "" 0 { fraud_probability := some 0 }
        "High" (8/10)).fraud_probability = 0) := by
  rw [enhanceTransaction_fraud_probability]
  norm_num

/-- C5 (amended): for every API transaction merged from a risk bucket
(High/0.8, Medium/0.5, Low/0.2), the merged record's `risk_level` is the
bucket's fixed level, and `fraud_probability` is the API value when the API
provided a non-zero one, and otherwise (absent or zero, both falsy to `||`)
the bucket default. -/
theorem C5_bucket_probability (origMap : String → Option NormalizedRow)
    (today : String) (rngId : Nat) (tx : ApiTx) (lvl : String) (dflt : ℚ)
    (_hbucket : (lvl, dflt) = ("High", 8/10) ∨ (lvl, dflt) = ("Medium", 5/10) ∨
      (lvl, dflt) = ("Low", 2/10)) :
    (enhanceTransaction origMap today rngId tx lvl dflt).risk_level = lvl ∧
    (∀ p, tx.fraud_probability = some p → p ≠ 0 →
      (enhanceTransaction origMap today rngId tx lvl dflt).fraud_probability = p) ∧
    ((tx.fraud_probability = none ∨ tx.fraud_probability = some 0) →
      (enhanceTransaction origMap today rngId tx lvl dflt).fraud_probability = dflt) := by
  refine ⟨rfl, ?_, ?_⟩
  · intro p hp hp0
    rw [enhanceTransaction_fraud_probability, hp]
    simp [hp0]
  · rintro (hp | hp)
    · rw [enhanceTransaction_fraud_probability, hp]
    · rw [enhanceTransaction_fraud_probability, hp]
      simp

/-- C5 witness: the amended theorem at a concrete Medium-bucket record with
no API probability. -/
theorem C5_witness :
    (enhanceTransaction (fun _ => none) "" 0 {} "Medium" (5/10)).risk_level
      = "Medium" ∧
    (enhanceTransaction (fun _ => none) "" 0 {} "Medium" (5/10)).fraud_probability
      = 5/10 :=
  ⟨(C5_bucket_probability (fun _ => none) "" 0 {} "Medium" (5/10)
      (Or.inr (Or.inl rfl))).1,
   (C5_bucket_probability (fun _ => none) "" 0 {} "Medium" (5/10)
      (Or.inr (Or.inl rfl))).2.2 (Or.inl rfl)⟩

end FraudPipeline

namespace FraudPipeline

lemma fallbackBuckets_allHigh (draw probDraw : Nat → ℚ) (hd : ∀ j, draw j < 1)
    (rows : List NormalizedRow) :
    ∀ i,
      (fallbackBuckets (100, 0, 0) draw probDraw i rows).2.1 = [] ∧
      (fallbackBuckets (100, 0, 0) draw probDraw i rows).2.2 = [] ∧
      (fallbackBuckets (100, 0, 0) draw probDraw i rows).1.length = rows.length ∧
      ∀ tx ∈ (fallbackBuckets (100, 0, 0) draw probDraw i rows).1,
        tx.risk_level = "High" := by
  induction rows with
  | nil =>
    intro i
    exact ⟨rfl, rfl, rfl, by intro tx htx; simp [fallbackBuckets] at htx⟩
  | cons r rest ih =>
    intro i
    obtain ⟨h1, h2, h3, h4⟩ := ih (i + 1)
    have hcond : draw i <
        ((100, 0, 0) : ℚ × ℚ × ℚ).1 /
          (if ((100, 0, 0) : ℚ × ℚ × ℚ).1 + ((100, 0, 0) : ℚ × ℚ × ℚ).2.1 +
              ((100, 0, 0) : ℚ × ℚ × ℚ).2.2 = 0 then 1
           else ((100, 0, 0) : ℚ × ℚ × ℚ).1 + ((100, 0, 0) : ℚ × ℚ × ℚ).2.1 +
              ((100, 0, 0) : ℚ × ℚ × ℚ).2.2) := by
      have he : (((100, 0, 0) : ℚ × ℚ × ℚ).1 /
          (if ((100, 0, 0) : ℚ × ℚ × ℚ).1 + ((100, 0, 0) : ℚ × ℚ × ℚ).2.1 +
              ((100, 0, 0) : ℚ × ℚ × ℚ).2.2 = 0 then 1
           else ((100, 0, 0) : ℚ × ℚ × ℚ).1 + ((100, 0, 0) : ℚ × ℚ × ℚ).2.1 +
              ((100, 0, 0) : ℚ × ℚ × ℚ).2.2)) = 1 := by norm_num
      rw [he]
      exact hd i
    unfold fallbackBuckets
    rw [if_pos hcond]
    refine ⟨h1, h2, by simpa using h3, ?_⟩
    intro tx htx
    rcases List.mem_cons.mp htx with h | h
    · rw [h]; rfl
    · exact h4 tx h

lemma fallbackBuckets_allLow (draw probDraw : Nat → ℚ) (hd : ∀ j, 0 ≤ draw j)
    (rows : List NormalizedRow) :
    ∀ i,
      (fallbackBuckets (0, 0, 0) draw probDraw i rows).1 = [] ∧
      (fallbackBuckets (0, 0, 0) draw probDraw i rows).2.1 = [] ∧
      (fallbackBuckets (0, 0, 0) draw probDraw i rows).2.2.length = rows.length ∧
      ∀ tx ∈ (fallbackBuckets (0, 0, 0) draw probDraw i rows).2.2,
        tx.risk_level = "Low" := by
  induction rows with
  | nil =>
    intro i
    exact ⟨rfl, rfl, rfl, by intro tx htx; simp [fallbackBuckets] at htx⟩
  | cons r rest ih =>
    intro i
    obtain ⟨h1, h2, h3, h4⟩ := ih (i + 1)
    have hzero : (((0, 0, 0) : ℚ × ℚ × ℚ).1 /
        (if ((0, 0, 0) : ℚ × ℚ × ℚ).1 + ((0, 0, 0) : ℚ × ℚ × ℚ).2.1 +
            ((0, 0, 0) : ℚ × ℚ × ℚ).2.2 = 0 then 1
         else ((0, 0, 0) : ℚ × ℚ × ℚ).1 + ((0, 0, 0) : ℚ × ℚ × ℚ).2.1 +
            ((0, 0, 0) : ℚ × ℚ × ℚ).2.2)) = 0 := by norm_num
    have hcond1 : ¬ (draw i <
        ((0, 0, 0) : ℚ × ℚ × ℚ).1 /
          (if ((0, 0, 0) : ℚ × ℚ × ℚ).1 + ((0, 0, 0) : ℚ × ℚ × ℚ).2.1 +
              ((0, 0, 0) : ℚ × ℚ × ℚ).2.2 = 0 then 1
           else ((0, 0, 0) : ℚ × ℚ × ℚ).1 + ((0, 0, 0) : ℚ × ℚ × ℚ).2.1 +
              ((0, 0, 0) : ℚ × ℚ × ℚ).2.2)) := by
      rw [hzero]
      exact not_lt.mpr (hd i)
    have hcond2 : ¬ (draw i <
        ((0, 0, 0) : ℚ × ℚ × ℚ).1 /
          (if ((0, 0, 0) : ℚ × ℚ × ℚ).1 + ((0, 0, 0) : ℚ × ℚ × ℚ).2.1 +
              ((0, 0, 0) : ℚ × ℚ × ℚ).2.2 = 0 then 1
           else ((0, 0, 0) : ℚ × ℚ × ℚ).1 + ((0, 0, 0) : ℚ × ℚ × ℚ).2.1 +
              ((0, 0, 0) : ℚ × ℚ × ℚ).2.2) +
          ((0, 0, 0) : ℚ × ℚ × ℚ).2.1 /
          (if ((0, 0, 0) : ℚ × ℚ × ℚ).1 + ((0, 0, 0) : ℚ × ℚ × ℚ).2.1 +
              ((0, 0, 0) : ℚ × ℚ × ℚ).2.2 = 0 then 1
           else ((0, 0, 0) : ℚ × ℚ × ℚ).1 + ((0, 0, 0) : ℚ × ℚ × ℚ).2.1 +
              ((0, 0, 0) : ℚ × ℚ × ℚ).2.2)) := by
      have he : (((0, 0, 0) : ℚ × ℚ × ℚ).1 /
          (if ((0, 0, 0) : ℚ × ℚ × ℚ).1 + ((0, 0, 0) : ℚ × ℚ × ℚ).2.1 +
              ((0, 0, 0) : ℚ × ℚ × ℚ).2.2 = 0 then 1
           else ((0, 0, 0) : ℚ × ℚ × ℚ).1 + ((0, 0, 0) : ℚ × ℚ × ℚ).2.1 +
              ((0, 0, 0) : ℚ × ℚ × ℚ).2.2) +
          ((0, 0, 0) : ℚ × ℚ × ℚ).2.1 /
          (if ((0, 0, 0) : ℚ × ℚ × ℚ).1 + ((0, 0, 0) : ℚ × ℚ × ℚ).2.1 +
              ((0, 0, 0) : ℚ × ℚ × ℚ).2.2 = 0 then 1
           else ((0, 0, 0) : ℚ × ℚ × ℚ).1 + ((0, 0, 0) : ℚ × ℚ × ℚ).2.1 +
              ((0, 0, 0) : ℚ × ℚ × ℚ).2.2)) = 0 := by norm_num
      rw [he]
      exact not_lt.mpr (hd i)
    unfold fallbackBuckets
    rw [if_neg hcond1, if_neg hcond2]
    refine ⟨h1, h2, by simpa using h3, ?_⟩
    intro tx htx
    rcases List.mem_cons.mp htx with h | h
    · rw [h]; rfl
    · exact h4 tx h

end FraudPipeline

namespace FraudPipeline

/-- C4 (confirmed): when all three risk buckets of the response are empty,
each preprocessed row is classified by comparing its uniform draw against
the cumulative thresholds from `riskDistribution`: with `{High: 100,
Medium: 0, Low: 0}` every row comes back with `risk_level = "High"`, and
with the distribution absent (defaulted to all-zero, so the High and Medium
bands have zero width) every row comes back `"Low"`. -/
theorem C4_fallback_classification (env : Env) (chunks : List (List RawRow))
    (pred : PredictionResponse)
    (hcsv : env.csv = .ok chunks) (hpred : env.prediction = .ok pred)
    (hh : pred.highRiskTransactions = []) (hm : pred.mediumRiskTransactions = [])
    (hl : pred.lowRiskTransactions = [])
    (hd : ∀ j, 0 ≤ env.draw j ∧ env.draw j < 1) :
    (pred.riskDistribution = some (100, 0, 0) →
      ∀ tx ∈ (processTransactions env).processedTransactions,
        tx.risk_level = "High") ∧
    (pred.riskDistribution = none →
      ∀ tx ∈ (processTransactions env).processedTransactions,
        tx.risk_level = "Low") := by
  obtain ⟨csv, prediction, idRng, apiIdRng, draw, probDraw, lvl1, lvl2, today⟩ := env
  subst hcsv
  subst hpred
  simp only [processTransactions, hh, hm, hl, List.enum_nil, List.map_nil,
    List.isEmpty_nil, and_self, if_true]
  constructor
  · intro hdist tx htx
    rw [hdist] at htx
    simp only [Option.getD_some] at htx
    obtain ⟨hB1, hB2, hBlen, hBall⟩ :=
      fallbackBuckets_allHigh draw probDraw (fun j => (hd j).2)
        (preprocessCSV idRng (collectChunks chunks)) 0
    rw [hB1, hB2] at htx
    simp only [List.append_nil] at htx
    rcases hB : (fallbackBuckets (100, 0, 0) draw probDraw 0
        (preprocessCSV idRng (collectChunks chunks))).1 with _ | ⟨b, bs⟩
    · rw [hB] at htx hBlen
      have hrows : preprocessCSV idRng (collectChunks chunks) = [] :=
        List.length_eq_zero.mp hBlen.symm
      rw [hrows] at htx
      simp at htx
    · rw [hB] at htx
      simp only [List.isEmpty_cons, if_false, Bool.false_eq_true] at htx
      exact hBall tx (hB ▸ htx)
  · intro hdist tx htx
    rw [hdist] at htx
    simp only [Option.getD_none] at htx
    obtain ⟨hB1, hB2, hBlen, hBall⟩ :=
      fallbackBuckets_allLow draw probDraw (fun j => (hd j).1)
        (preprocessCSV idRng (collectChunks chunks)) 0
    rw [hB1, hB2] at htx
    simp only [List.nil_append] at htx
    rcases hB : (fallbackBuckets (0, 0, 0) draw probDraw 0
        (preprocessCSV idRng (collectChunks chunks))).2.2 with _ | ⟨b, bs⟩
    · rw [hB] at htx hBlen
      have hrows : preprocessCSV idRng (collectChunks chunks) = [] :=
        List.length_eq_zero.mp hBlen.symm
      rw [hrows] at htx
      simp at htx
    · rw [hB] at htx
      simp only [List.isEmpty_cons, if_false, Bool.false_eq_true] at htx
      exact hBall tx (hB ▸ htx)

end FraudPipeline

namespace FraudPipeline

/-- C4 witness: the theorem applied to `envAllHigh` — every produced
transaction is High. -/
theorem C4_witness :
    ((processTransactions envAllHigh).processedTransactions.all
      (fun tx => tx.risk_level == "High")) = true := by
  have h := (C4_fallback_classification envAllHigh [[{}]]
      { riskDistribution := some (100, 0, 0) } rfl rfl rfl rfl rfl
      (fun j => by constructor <;> norm_num [envAllHigh])).1 rfl
  exact List.all_eq_true.mpr (fun tx htx => by rw [h tx htx]; rfl)

/-- C2 (counterexample): the claim "whenever any stage fails the caller
still receives processed transactions (falling back to locally generated
demo/fallback transactions)" fails for the CSV-parse stage: a parse
rejection resolves with an *empty* transaction list (plus a 400 error) —
no fallback or demo data is produced on that path. -/
theorem C2_counterexample :
    (processTransactions envCsvError).processedTransactions = [] ∧
    (processTransactions envCsvError).error.isSome = true :=
  ⟨rfl, rfl⟩

/-- C2 (amended): `processTransactions` always resolves (the embedding is a
total function of the stage outcomes), but the fallback differs by stage:
a CSV-parse failure resolves with an empty list plus a status-400 error; a
prediction failure resolves with the uploaded preprocessed rows (randomly
classified) plus a status-500 error; when both stages succeed no error is
attached. -/
theorem C2_orchestration_policy (env : Env) :
    ((∃ msg, env.csv = .error msg) →
      (processTransactions env).processedTransactions = [] ∧
      ∃ e, (processTransactions env).error = some e ∧ e.statusCode = 400) ∧
    (∀ chunks msg, env.csv = .ok chunks → env.prediction = .error msg →
      (processTransactions env).processedTransactions.length
        = (preprocessCSV env.idRng (collectChunks chunks)).length ∧
      ∃ e, (processTransactions env).error = some e ∧ e.statusCode = 500) ∧
    (∀ chunks pred, env.csv = .ok chunks → env.prediction = .ok pred →
      (processTransactions env).error = none) := by
  obtain ⟨csv, prediction, idRng, apiIdRng, draw, probDraw, lvl1, lvl2, today⟩ := env
  refine ⟨?_, ?_, ?_⟩
  · rintro ⟨msg, hmsg⟩
    subst hmsg
    exact ⟨rfl, ⟨_, rfl, rfl⟩⟩
  · intro chunks msg hcsv hpred
    subst hcsv
    subst hpred
    refine ⟨?_, ⟨_, rfl, rfl⟩⟩
    simp only [processTransactions, USE_DEMO_DATA_ON_ERROR, if_true,
      List.length_map, List.enum_length]
  · intro chunks pred hcsv hpred
    subst hcsv
    subst hpred
    simp only [processTransactions]
    split_ifs <;> rfl

/-- C2 witness: the amended theorem applied to the concrete failing
environment `envCsvError`. -/
theorem C2_witness :
    (processTransactions envCsvError).processedTransactions = [] ∧
    ∃ e, (processTransactions envCsvError).error = some e ∧ e.statusCode = 400 :=
  (C2_orchestration_policy envCsvError).1 ⟨"bad CSV", rfl⟩

end FraudPipeline
